import Mathlib

/-!
Shallow embedding of the skybox subsystem of the Ignis engine
(`engine/src/systems/skybox_system.c`) together with proofs about its
load/unload/render lifecycle.

External collaborators (resource system, renderer backend, shader system,
geometry system) are modelled as environments describing the outcome of
each collaborator call, and every resource-affecting collaborator call is
recorded in an event trace so that ordering and leak properties can be
stated.  Machine integers are modelled as `Nat` with explicit reductions
modulo `2 ^ 32` where the C code computes in `u32`.
-/

namespace Ignis

/-- Modelled from the spec: the engine-wide invalid-handle sentinel
(`INVALID_ID` from `defines.h`, which is not in the visible tree).  The
spec describes sentinel-based invalid handles as magic values; the engine
convention (consistent with the code storing `(u64)-1` as a forced-update
sentinel for 64-bit counters) is the maximum `u32` value. -/
def INVALID_ID : Nat := 4294967295

/-- Maximum skybox name length, from `skybox_system.h`. -/
def SKYBOX_NAME_MAX_LENGTH : Nat := 64

/-- Modelled from the spec: maximum texture name length
(`TEXTURE_NAME_MAX_LENGTH` from `resource_types.h`, not in the visible
tree). -/
def TEXTURE_NAME_MAX_LENGTH : Nat := 512

/-- The value `(u64)-1`, stored into `render_frame_number` on a successful
load to force the first instance update. -/
def U64_MAX : Nat := 18446744073709551615

/-- Reduction modulo `2 ^ 32`, for expressions the C code computes in `u32`
(pixel-buffer byte sizes). -/
def u32_of (n : Nat) : Nat := n % 4294967296

/-- Modelled from the spec: `string_ncopy` (`kstring.c` is not in the
visible tree) copies at most `n` characters of the source into a bounded
destination buffer; the stored string is the length-`n` truncation of the
source. -/
def string_ncopy (src : String) (n : Nat) : String := String.mk (src.data.take n)

/-- Modelled from the spec: texture usage enumeration from
`resource_types.h` (not in the visible tree); the skybox map uses the
diffuse-map usage, the zeroed struct holds the unknown usage. -/
inductive texture_use where
  | TEXTURE_USE_UNKNOWN
  | TEXTURE_USE_MAP_DIFFUSE
  deriving DecidableEq, Repr

/-- Modelled from the spec: texture filter mode enumeration from
`resource_types.h` (not in the visible tree). -/
inductive texture_filter_mode where
  | TEXTURE_FILTER_MODE_NEAREST
  | TEXTURE_FILTER_MODE_LINEAR
  deriving DecidableEq, Repr

/-- Modelled from the spec: texture repeat mode enumeration from
`resource_types.h` (not in the visible tree). -/
inductive texture_repeat_mode where
  | TEXTURE_REPEAT_REPEAT
  | TEXTURE_REPEAT_MIRRORED_REPEAT
  | TEXTURE_REPEAT_CLAMP_TO_EDGE
  deriving DecidableEq, Repr

/-- The texture metadata held in `skybox_state.cubemap_texture`
(width/height/channel count/generation/name, as set by
`skybox_system_load`). -/
structure texture where
  width : Nat
  height : Nat
  channel_count : Nat
  generation : Nat
  name : String
  deriving DecidableEq, Repr

/-- The zeroed texture struct (`kzero_memory`). -/
def texture_zero : texture :=
  { width := 0, height := 0, channel_count := 0, generation := 0, name := "" }

/-- The texture map held in `skybox_state.cubemap_map`.  The `texture`
pointer field is modelled as a flag recording whether it points at the
cubemap texture. -/
structure texture_map where
  texture_set : Bool
  use : texture_use
  filter_minify : texture_filter_mode
  filter_magnify : texture_filter_mode
  repeat_u : texture_repeat_mode
  repeat_v : texture_repeat_mode
  repeat_w : texture_repeat_mode
  deriving DecidableEq, Repr

/-- The zeroed texture map struct (`kzero_memory`). -/
def texture_map_zero : texture_map :=
  { texture_set := false
    use := texture_use.TEXTURE_USE_UNKNOWN
    filter_minify := texture_filter_mode.TEXTURE_FILTER_MODE_NEAREST
    filter_magnify := texture_filter_mode.TEXTURE_FILTER_MODE_NEAREST
    repeat_u := texture_repeat_mode.TEXTURE_REPEAT_REPEAT
    repeat_v := texture_repeat_mode.TEXTURE_REPEAT_REPEAT
    repeat_w := texture_repeat_mode.TEXTURE_REPEAT_REPEAT }

/-- The texture map set up by `skybox_system_load` (lines 168-174 of
`skybox_system.c`): diffuse usage, linear filtering, clamp-to-edge on all
three axes, pointing at the cubemap texture. -/
def skybox_cubemap_map : texture_map :=
  { texture_set := true
    use := texture_use.TEXTURE_USE_MAP_DIFFUSE
    filter_minify := texture_filter_mode.TEXTURE_FILTER_MODE_LINEAR
    filter_magnify := texture_filter_mode.TEXTURE_FILTER_MODE_LINEAR
    repeat_u := texture_repeat_mode.TEXTURE_REPEAT_CLAMP_TO_EDGE
    repeat_v := texture_repeat_mode.TEXTURE_REPEAT_CLAMP_TO_EDGE
    repeat_w := texture_repeat_mode.TEXTURE_REPEAT_CLAMP_TO_EDGE }

/-- Matrices are pass-through values for this subsystem (forwarded to
uniform-set collaborator calls unmodified), so they carry no observable
content here. -/
structure mat4 where
  deriving DecidableEq, Repr, Inhabited

/-- The image data returned by the image-loading collaborator
(`image_resource_data` from `resource_types.h`): dimensions and channel
count; the raw pixels themselves are not observable by any property here,
only the byte sizes computed from these fields. -/
structure image_resource_data where
  width : Nat
  height : Nat
  channel_count : Nat
  deriving DecidableEq, Repr

/-- The subsystem state struct `skybox_state`.  `cube_geometry` is a
pointer in C and modelled as a presence flag; `current_name` and
`base_path` are bounded C strings modelled as truncated strings. -/
structure skybox_state where
  current_name : String
  is_loaded : Bool
  cubemap_texture : texture
  cubemap_map : texture_map
  cube_geometry : Bool
  shader_id : Nat
  shader_instance_id : Nat
  render_frame_number : Nat
  base_path : String
  deriving DecidableEq, Repr

/-- The zeroed subsystem state (`kzero_memory(state_ptr, sizeof(skybox_state))`
in `skybox_system_initialize`). -/
def skybox_state_zero : skybox_state :=
  { current_name := ""
    is_loaded := false
    cubemap_texture := texture_zero
    cubemap_map := texture_map_zero
    cube_geometry := false
    shader_id := 0
    shader_instance_id := 0
    render_frame_number := 0
    base_path := "" }

/-- Events recording each resource-affecting collaborator call issued by
the skybox subsystem, in program order. -/
inductive Event where
  | allocFace (face : Nat) (size : Nat)
  | freeFace (face : Nat) (size : Nat)
  | resourceUnload (face : Nat)
  | cubemapCreate
  | cubemapDestroy
  | mapAcquire
  | mapRelease
  | instanceAcquire
  | instanceRelease (id : Nat)
  | shaderUse
  | bindGlobals
  | setProjection
  | setView
  | applyGlobal
  | bindInstance (id : Nat)
  | applyInstance (needs_update : Bool)
  | drawGeometry
  deriving DecidableEq, Repr

/-- Events that acquire resources for a new skybox during a load attempt
(pixel-buffer allocation, cubemap creation, map-resource acquisition,
shader-instance acquisition). -/
def Event.isAcquireEvent : Event → Bool
  | Event.allocFace _ _ => true
  | Event.cubemapCreate => true
  | Event.mapAcquire => true
  | Event.instanceAcquire => true
  | _ => false

/-- The reference dimensions established by face 0 in
`load_cubemap_faces` (the `out_width`/`out_height`/`out_channels`
out-parameters). -/
structure FacesOut where
  width : Nat
  height : Nat
  channels : Nat
  deriving DecidableEq, Repr

/-- Trace of `free_face_pixels`: frees every still-allocated face buffer,
each with the size computed from the single width/height/channel triple it
is handed (face 0's reference values). -/
def free_face_pixels_trace (allocated : List (Nat × Nat)) (size : Nat) : List Event :=
  allocated.map (fun p => Event.freeFace p.1 size)

/-- The loop body of `load_cubemap_faces` for faces 1-5: a missing face
frees all earlier buffers and fails; a face whose width or height differs
from the reference frees the resource and all earlier buffers and fails.
The face's channel count is not compared - only width and height are
checked (line 330 of `skybox_system.c`).  Each kept face allocates a
buffer of its own `width * height * channel_count` bytes and releases the
image resource. -/
def load_faces_go (fl : Nat → Option image_resource_data) :
    List Nat → FacesOut → List (Nat × Nat) → List Event →
    Option FacesOut × List (Nat × Nat) × List Event
  | [], ref, allocated, tr => (some ref, allocated, tr)
  | i :: rest, ref, allocated, tr =>
    match fl i with
    | none =>
      (none, allocated,
        tr ++ free_face_pixels_trace allocated (u32_of (ref.width * ref.height * ref.channels)))
    | some img =>
      if img.width != ref.width || img.height != ref.height then
        (none, allocated,
          tr ++ [Event.resourceUnload i]
             ++ free_face_pixels_trace allocated (u32_of (ref.width * ref.height * ref.channels)))
      else
        let sz := u32_of (img.width * img.height * img.channel_count)
        load_faces_go fl rest ref (allocated ++ [(i, sz)])
          (tr ++ [Event.allocFace i sz, Event.resourceUnload i])

/-- `load_cubemap_faces`: face 0 establishes the reference dimensions (a
missing face 0 fails with nothing to free); faces 1-5 are processed by
`load_faces_go`.  Returns the reference dimensions, the list of
(face, byte size) buffer allocations still held, and the event trace. -/
def load_cubemap_faces (fl : Nat → Option image_resource_data) :
    Option FacesOut × List (Nat × Nat) × List Event :=
  match fl 0 with
  | none => (none, [], [])
  | some img0 =>
    let ref : FacesOut := { width := img0.width, height := img0.height, channels := img0.channel_count }
    let sz0 := u32_of (img0.width * img0.height * img0.channel_count)
    load_faces_go fl [1, 2, 3, 4, 5] ref [(0, sz0)]
      [Event.allocFace 0 sz0, Event.resourceUnload 0]

/-- Collaborator outcomes for one `skybox_system_load` call:
`face_load i` is the result of `resource_system_load` for face `i`;
`map_acquire_ok` is the result of `renderer_texture_map_acquire_resources`;
`shader_get_ok` tells whether `shader_system_get_by_id` finds the skybox
shader; `instance_acquire` is `some id` when
`renderer_shader_acquire_instance_resources` succeeds with out-id `id`. -/
structure LoadEnv where
  face_load : Nat → Option image_resource_data
  map_acquire_ok : Bool
  shader_get_ok : Bool
  instance_acquire : Option Nat

/-- `skybox_system_unload` on a non-null state pointer: no-op when not
loaded; otherwise releases the shader instance resources (skipped when the
shader lookup fails or the instance id is the sentinel), then the texture
map resources (zeroing the map), then destroys the cubemap texture
(zeroing it), then clears the name and the loaded flag. -/
def skybox_system_unload_core (s : skybox_state) (shader_get_ok : Bool) :
    skybox_state × List Event :=
  if s.is_loaded then
    let step1 :=
      if shader_get_ok && s.shader_instance_id != INVALID_ID then
        ({ s with shader_instance_id := INVALID_ID },
          [Event.instanceRelease s.shader_instance_id])
      else (s, ([] : List Event))
    let s2 := { step1.1 with cubemap_map := texture_map_zero }
    let s3 := { s2 with cubemap_texture := texture_zero }
    ({ s3 with current_name := "", is_loaded := false },
      step1.2 ++ [Event.mapRelease, Event.cubemapDestroy])
  else (s, [])

/-- `skybox_system_unload` including the null-state-pointer guard. -/
def skybox_system_unload (st : Option skybox_state) (shader_get_ok : Bool) :
    Option skybox_state × List Event :=
  match st with
  | none => (none, [])
  | some s =>
    let r := skybox_system_unload_core s shader_get_ok
    (some r.1, r.2)

/-- The part of `skybox_system_load` after the unload of any previous
skybox (lines 145-207 of `skybox_system.c`): fetch the six faces, fill in
the texture metadata (generation set to the invalid sentinel, name
truncated to the texture name bound), create the cubemap, free the face
buffers with face 0's byte size, set up the texture map, then acquire map
resources, look up the shader, and acquire instance resources, destroying
everything acquired so far on each failure; on success store the truncated
name, set the loaded flag and force the first instance update. -/
def skybox_load_attempt (s : skybox_state) (name : String) (env : LoadEnv) :
    Bool × skybox_state × List Event :=
  match load_cubemap_faces env.face_load with
  | (none, _, ftr) => (false, s, ftr)
  | (some fo, allocated, ftr) =>
    let tex : texture :=
      { width := fo.width, height := fo.height, channel_count := fo.channels
        generation := INVALID_ID, name := string_ncopy name TEXTURE_NAME_MAX_LENGTH }
    let size0 := u32_of (fo.width * fo.height * fo.channels)
    let s2 := { s with cubemap_texture := tex, cubemap_map := skybox_cubemap_map }
    let tr2 := ftr ++ [Event.cubemapCreate] ++ free_face_pixels_trace allocated size0
    if env.map_acquire_ok = false then
      (false, s2, tr2 ++ [Event.mapAcquire, Event.cubemapDestroy])
    else if env.shader_get_ok = false then
      (false, s2, tr2 ++ [Event.mapAcquire, Event.mapRelease, Event.cubemapDestroy])
    else
      match env.instance_acquire with
      | none =>
        (false, s2,
          tr2 ++ [Event.mapAcquire, Event.instanceAcquire, Event.mapRelease, Event.cubemapDestroy])
      | some iid =>
        (true,
          { s2 with shader_instance_id := iid
                    current_name := string_ncopy name SKYBOX_NAME_MAX_LENGTH
                    is_loaded := true
                    render_frame_number := U64_MAX },
          tr2 ++ [Event.mapAcquire, Event.instanceAcquire])

/-- `skybox_system_load`: fails on a null state pointer or a missing
skybox shader; unloads the current skybox when one is loaded; then runs
the load attempt. -/
def skybox_system_load (st : Option skybox_state) (name : String) (env : LoadEnv) :
    Bool × Option skybox_state × List Event :=
  match st with
  | none => (false, none, [])
  | some s =>
    if s.shader_id = INVALID_ID then (false, some s, [])
    else
      let pre :=
        if s.is_loaded then skybox_system_unload_core s env.shader_get_ok
        else (s, ([] : List Event))
      let r := skybox_load_attempt pre.1 name env
      (r.1, some r.2.1, pre.2 ++ r.2.2)

/-- Collaborator outcomes for one `skybox_system_render` call. -/
structure RenderEnv where
  use_ok : Bool
  shader_get_ok : Bool
  bind_globals_ok : Bool
  set_projection_ok : Bool
  set_view_ok : Bool
  apply_instance_ok : Bool
  deriving DecidableEq, Repr

/-- Holds when every collaborator call of a render succeeds. -/
def RenderEnv.all_ok (e : RenderEnv) : Bool :=
  e.use_ok && e.shader_get_ok && e.bind_globals_ok && e.set_projection_ok
    && e.set_view_ok && e.apply_instance_ok

/-- `skybox_system_render`: no-op when the state pointer is null, nothing
is loaded, or the cube geometry is absent.  Otherwise: use the shader,
look up the shader, bind globals, set the projection and view uniforms,
apply globals, bind the instance, compute `needs_update` as the stored
frame number differing from the passed one, apply the instance with that
flag (aborting the frame on failure, before the frame number is stored),
store the frame number, and draw the cube geometry.  Each checked failure
returns with the state unchanged. -/
def skybox_system_render (st : Option skybox_state) (projection view : mat4)
    (render_frame_number : Nat) (env : RenderEnv) : Option skybox_state × List Event :=
  match st with
  | none => (none, [])
  | some s =>
    if !s.is_loaded || !s.cube_geometry then (some s, [])
    else if !env.use_ok then (some s, [Event.shaderUse])
    else if !env.shader_get_ok then (some s, [Event.shaderUse])
    else if !env.bind_globals_ok then (some s, [Event.shaderUse, Event.bindGlobals])
    else if !env.set_projection_ok then
      (some s, [Event.shaderUse, Event.bindGlobals, Event.setProjection])
    else if !env.set_view_ok then
      (some s, [Event.shaderUse, Event.bindGlobals, Event.setProjection, Event.setView])
    else
      let needs_update := s.render_frame_number != render_frame_number
      let tr := [Event.shaderUse, Event.bindGlobals, Event.setProjection, Event.setView,
        Event.applyGlobal, Event.bindInstance s.shader_instance_id,
        Event.applyInstance needs_update]
      if !env.apply_instance_ok then (some s, tr)
      else
        ({ s with render_frame_number := render_frame_number } : skybox_state) |>
          fun s1 => (some s1, tr ++ [Event.drawGeometry])

/-- Configuration passed to `skybox_system_initialize`. -/
structure skybox_system_config where
  skybox_base_path : Option String

/-- Collaborator outcomes for one `skybox_system_initialize` call:
`shader_get_id` is the raw result of `shader_system_get_id` (the sentinel
when the skybox shader is missing); `geometry_acquire_ok` tells whether
`geometry_system_acquire_from_config` returned a non-null geometry. -/
structure InitEnv where
  shader_get_id : Nat
  geometry_acquire_ok : Bool
  deriving DecidableEq, Repr

/-- `skybox_system_initialize`: with a null state pointer only the memory
requirement is reported and true is returned.  Otherwise the state is
zeroed, the base path stored, the shader id looked up (a missing shader is
non-fatal: the call still returns true, leaving the sentinel shader id and
no cube geometry), and the cube geometry created (failure here is
fatal). -/
def skybox_system_initialize (has_state : Bool) (config : skybox_system_config)
    (env : InitEnv) : Bool × Option skybox_state :=
  if !has_state then (true, none)
  else
    let s0 : skybox_state :=
      { skybox_state_zero with
          base_path := string_ncopy (config.skybox_base_path.getD "../assets/skyboxes") 512
          shader_id := env.shader_get_id }
    if env.shader_get_id = INVALID_ID then (true, some s0)
    else if env.geometry_acquire_ok then (true, some { s0 with cube_geometry := true })
    else (false, some s0)

/-- `skybox_system_get_current_name`: empty string on a null state
pointer. -/
def skybox_system_get_current_name (st : Option skybox_state) : String :=
  match st with
  | none => ""
  | some s => s.current_name

/-- `skybox_system_is_loaded`: false on a null state pointer. -/
def skybox_system_is_loaded (st : Option skybox_state) : Bool :=
  match st with
  | none => false
  | some s => s.is_loaded

/-- One public operation on the subsystem, with the collaborator outcomes
it observes. -/
inductive SkyOp where
  | load (name : String) (env : LoadEnv)
  | unload (shader_get_ok : Bool)
  | render (projection view : mat4) (frame : Nat) (env : RenderEnv)

/-- State transition of one operation (result value and trace
discarded). -/
def SkyOp.step (st : Option skybox_state) : SkyOp → Option skybox_state
  | SkyOp.load name env => (skybox_system_load st name env).2.1
  | SkyOp.unload g => (skybox_system_unload st g).1
  | SkyOp.render p v f env => (skybox_system_render st p v f env).1

/-- Runs a sequence of operations from a state. -/
def run_ops (st : Option skybox_state) (ops : List SkyOp) : Option skybox_state :=
  ops.foldl SkyOp.step st

/-- A well-behaved operation environment: a successful shader-instance
acquisition never hands out the sentinel as a valid instance id. -/
def SkyOp.good : SkyOp → Bool
  | SkyOp.load _ env => env.instance_acquire ≠ some INVALID_ID
  | _ => true

/-- The instance-id query, with the sentinel reported for a null state
pointer. -/
def skybox_instance_id (st : Option skybox_state) : Nat :=
  match st with
  | none => INVALID_ID
  | some s => s.shader_instance_id

/-- Concrete example environment: all six faces are 1x1 RGBA images and
every collaborator call succeeds, handing out instance id 0. -/
def load_env_ok : LoadEnv :=
  { face_load := fun _ => some { width := 1, height := 1, channel_count := 4 }
    map_acquire_ok := true
    shader_get_ok := true
    instance_acquire := some 0 }

/-- Concrete example environment in which face 0 is missing. -/
def load_env_face0_missing : LoadEnv :=
  { face_load := fun _ => none
    map_acquire_ok := true
    shader_get_ok := true
    instance_acquire := some 0 }

/-- Concrete example environment in which all six faces agree in width and
height but face 1 has 3 channels while the others have 4. -/
def load_env_channel_mismatch : LoadEnv :=
  { face_load := fun i =>
      if i = 1 then some { width := 1, height := 1, channel_count := 3 }
      else some { width := 1, height := 1, channel_count := 4 }
    map_acquire_ok := true
    shader_get_ok := true
    instance_acquire := some 0 }

/-- The state right after a successful initialization with the skybox
shader found under id 5. -/
def skybox_init_state : Option skybox_state :=
  ( skybox_system_initialize true { skybox_base_path := none }
      { shader_get_id := 5, geometry_acquire_ok := true }).2

/-- A concrete loaded state, as produced by a successful load of
`"default"` from the freshly initialized state. -/
def skybox_loaded_state : skybox_state :=
  { current_name := "default"
    is_loaded := true
    cubemap_texture :=
      { width := 1, height := 1, channel_count := 4, generation := INVALID_ID, name := "default" }
    cubemap_map := skybox_cubemap_map
    cube_geometry := true
    shader_id := 5
    shader_instance_id := 0
    render_frame_number := U64_MAX
    base_path := "../assets/skyboxes" }

/-- A render environment in which every collaborator call succeeds. -/
def render_env_ok : RenderEnv :=
  { use_ok := true, shader_get_ok := true, bind_globals_ok := true
    set_projection_ok := true, set_view_ok := true, apply_instance_ok := true }

/-- Concrete example environment in which the faces load fine but
texture-map resource acquisition fails. -/
def load_env_map_fail : LoadEnv :=
  { face_load := fun _ => some { width := 1, height := 1, channel_count := 4 }
    map_acquire_ok := false
    shader_get_ok := true
    instance_acquire := some 0 }

/-- Concrete example environment in which the faces load and the map
resources are acquired, but shader-instance acquisition fails. -/
def load_env_instance_fail : LoadEnv :=
  { face_load := fun _ => some { width := 1, height := 1, channel_count := 4 }
    map_acquire_ok := true
    shader_get_ok := true
    instance_acquire := none }

/-- A name one character longer than the skybox name bound. -/
def long_name : String := String.mk (List.replicate (SKYBOX_NAME_MAX_LENGTH + 1) 'a')

/-! ### Helper lemmas about `skybox_system_unload` -/

theorem unload_core_of_not_loaded (s : skybox_state) (g : Bool) (h : s.is_loaded = false) :
    skybox_system_unload_core s g = (s, []) := by
  simp [skybox_system_unload_core, h]

theorem unload_core_result_not_loaded (s : skybox_state) (g : Bool) :
    (skybox_system_unload_core s g).1.is_loaded = false := by
  by_cases h : s.is_loaded
  · simp [skybox_system_unload_core, h]
  · simp [skybox_system_unload_core, h]

theorem unload_core_loaded_state (s : skybox_state) (g : Bool) (h : s.is_loaded = true) :
    (skybox_system_unload_core s g).1.current_name = "" ∧
    (skybox_system_unload_core s g).1.is_loaded = false := by
  simp [skybox_system_unload_core, h]

theorem unload_core_shader_id (s : skybox_state) (g : Bool) :
    (skybox_system_unload_core s g).1.shader_id = s.shader_id := by
  by_cases h : s.is_loaded
  · simp only [skybox_system_unload_core, h, if_true]
    split <;> rfl
  · simp [skybox_system_unload_core, h]

theorem unload_core_trace_loaded (s : skybox_state) (g : Bool) (h : s.is_loaded = true) :
    (skybox_system_unload_core s g).2
      = (if g && s.shader_instance_id != INVALID_ID then
           [Event.instanceRelease s.shader_instance_id] else [])
        ++ [Event.mapRelease, Event.cubemapDestroy] := by
  simp only [skybox_system_unload_core, h, if_true]
  split <;> simp_all

theorem unload_core_trace_no_acquire (s : skybox_state) (g : Bool) :
    ∀ e ∈ (skybox_system_unload_core s g).2, e.isAcquireEvent = false := by
  by_cases h : s.is_loaded
  · rw [unload_core_trace_loaded s g h]
    by_cases hg2 : (g && s.shader_instance_id != INVALID_ID) = true
    · simp only [hg2, if_true]
      intro e he
      fin_cases he <;> rfl
    · simp only [hg2, if_false, Bool.false_eq_true, List.nil_append]
      intro e he
      fin_cases he <;> rfl
  · rw [unload_core_of_not_loaded s g (by simpa using h)]
    intro e he
    exact absurd he (List.not_mem_nil e)

/-! ### Helper lemmas about `skybox_load_attempt` and `skybox_system_render` -/

theorem load_attempt_cases (s : skybox_state) (name : String) (env : LoadEnv) :
    ((skybox_load_attempt s name env).1 = false ∧
       (skybox_load_attempt s name env).2.1.is_loaded = s.is_loaded ∧
       (skybox_load_attempt s name env).2.1.current_name = s.current_name ∧
       (skybox_load_attempt s name env).2.1.shader_id = s.shader_id ∧
       (skybox_load_attempt s name env).2.1.shader_instance_id = s.shader_instance_id)
  ∨ ((skybox_load_attempt s name env).1 = true ∧
       (skybox_load_attempt s name env).2.1.is_loaded = true ∧
       (skybox_load_attempt s name env).2.1.current_name
         = string_ncopy name SKYBOX_NAME_MAX_LENGTH ∧
       (skybox_load_attempt s name env).2.1.shader_id = s.shader_id ∧
       env.instance_acquire
         = some (skybox_load_attempt s name env).2.1.shader_instance_id) := by
  rcases hfo : load_cubemap_faces env.face_load with ⟨o, allocated, ftr⟩
  cases o with
  | none =>
    left
    simp [skybox_load_attempt, hfo]
  | some fo =>
    by_cases hm : env.map_acquire_ok = false
    · left
      simp [skybox_load_attempt, hfo, hm]
    · by_cases hg : env.shader_get_ok = false
      · left
        simp [skybox_load_attempt, hfo, hm, hg]
      · rcases hi : env.instance_acquire with _ | iid
        · left
          simp [skybox_load_attempt, hfo, hm, hg, hi]
        · right
          simp [skybox_load_attempt, hfo, hm, hg, hi]

theorem render_state_cases (s : skybox_state) (p v : mat4) (f : Nat) (env : RenderEnv) :
    (skybox_system_render (some s) p v f env).1 = some s ∨
    (skybox_system_render (some s) p v f env).1
      = some { s with render_frame_number := f } := by
  rw [skybox_system_render]
  split_ifs <;> simp

theorem load_result_flag (s : skybox_state) (name : String) (env : LoadEnv)
    (hs : ¬ s.shader_id = INVALID_ID) :
    (skybox_system_load (some s) name env).1
      = (skybox_load_attempt
          ((if s.is_loaded then skybox_system_unload_core s env.shader_get_ok
            else (s, [])).1) name env).1 := by
  simp [skybox_system_load, hs]

theorem load_result_state (s : skybox_state) (name : String) (env : LoadEnv)
    (hs : ¬ s.shader_id = INVALID_ID) :
    (skybox_system_load (some s) name env).2.1
      = some (skybox_load_attempt
          ((if s.is_loaded then skybox_system_unload_core s env.shader_get_ok
            else (s, [])).1) name env).2.1 := by
  simp [skybox_system_load, hs]

theorem load_result_trace (s : skybox_state) (name : String) (env : LoadEnv)
    (hs : ¬ s.shader_id = INVALID_ID) :
    (skybox_system_load (some s) name env).2.2
      = (if s.is_loaded then skybox_system_unload_core s env.shader_get_ok
         else (s, [])).2
        ++ (skybox_load_attempt
            ((if s.is_loaded then skybox_system_unload_core s env.shader_get_ok
              else (s, [])).1) name env).2.2 := by
  simp [skybox_system_load, hs]

theorem pre_state_props (s : skybox_state) (g : Bool)
    (h1 : s.is_loaded = false → s.current_name = "") :
    ((if s.is_loaded then skybox_system_unload_core s g else (s, [])).1.is_loaded = false) ∧
    ((if s.is_loaded then skybox_system_unload_core s g else (s, [])).1.current_name = "") ∧
    ((if s.is_loaded then skybox_system_unload_core s g else (s, [])).1.shader_id
       = s.shader_id) := by
  by_cases hl : s.is_loaded
  · simp only [hl, if_true]
    exact ⟨unload_core_result_not_loaded s g, (unload_core_loaded_state s g hl).1,
      unload_core_shader_id s g⟩
  · rw [if_neg hl]
    exact ⟨by simpa using hl, h1 (by simpa using hl), rfl⟩

theorem pre_state_not_loaded (s : skybox_state) (g : Bool) :
    (if s.is_loaded then skybox_system_unload_core s g else (s, [])).1.is_loaded
      = false := by
  by_cases hl : s.is_loaded
  · rw [if_pos hl]
    exact unload_core_result_not_loaded s g
  · rw [if_neg hl]
    simpa using hl

/-! ### Reachability invariants -/

/-- Basic state invariant maintained by every operation: an unloaded state
has an empty current name, and a loaded state has a valid shader id. -/
def basic_inv (st : Option skybox_state) : Prop :=
  ∀ s, st = some s →
    (s.is_loaded = false → s.current_name = "") ∧
    (s.is_loaded = true → s.shader_id ≠ INVALID_ID)

/-- Instance-handle invariant: a loaded state holds a non-sentinel shader
instance id. -/
def inst_inv (st : Option skybox_state) : Prop :=
  ∀ s, st = some s → s.is_loaded = true → s.shader_instance_id ≠ INVALID_ID

theorem step_basic_inv (st : Option skybox_state) (op : SkyOp) (h : basic_inv st) :
    basic_inv (SkyOp.step st op) := by
  cases op with
  | load name env =>
    cases st with
    | none =>
      intro s2 hs2
      simp [SkyOp.step, skybox_system_load] at hs2
    | some s =>
      by_cases hs : s.shader_id = INVALID_ID
      · intro s2 hs2
        simp only [SkyOp.step, skybox_system_load, hs, if_true] at hs2
        obtain rfl := Option.some.inj hs2
        exact h s rfl
      · intro s2 hs2
        rw [SkyOp.step, load_result_state s name env hs] at hs2
        obtain rfl := Option.some.inj hs2
        have hpre := pre_state_props s env.shader_get_ok (h s rfl).1
        rcases load_attempt_cases
            ((if s.is_loaded then skybox_system_unload_core s env.shader_get_ok
              else (s, [])).1) name env with
          ⟨_, hL, hN, _, _⟩ | ⟨_, hL, hN, hS, _⟩
        · constructor
          · intro _
            rw [hN]
            exact hpre.2.1
          · intro hld
            rw [hL, hpre.1] at hld
            exact absurd hld (by simp)
        · constructor
          · intro hld
            rw [hL] at hld
            exact absurd hld (by simp)
          · intro _
            rw [hS, hpre.2.2]
            exact hs
  | unload g =>
    cases st with
    | none =>
      intro s2 hs2
      simp [SkyOp.step, skybox_system_unload] at hs2
    | some s =>
      intro s2 hs2
      simp only [SkyOp.step, skybox_system_unload] at hs2
      obtain rfl := Option.some.inj hs2
      constructor
      · intro _
        by_cases hl : s.is_loaded
        · exact (unload_core_loaded_state s g hl).1
        · rw [unload_core_of_not_loaded s g (by simpa using hl)]
          exact (h s rfl).1 (by simpa using hl)
      · intro hld
        rw [unload_core_result_not_loaded s g] at hld
        exact absurd hld (by simp)
  | render p v f env =>
    cases st with
    | none =>
      intro s2 hs2
      simp [SkyOp.step, skybox_system_render] at hs2
    | some s =>
      intro s2 hs2
      simp only [SkyOp.step] at hs2
      rcases render_state_cases s p v f env with hr | hr <;> rw [hr] at hs2 <;>
        obtain rfl := Option.some.inj hs2 <;> exact h s rfl

theorem step_inst_inv (st : Option skybox_state) (op : SkyOp) (hg : op.good = true)
    (h : inst_inv st) : inst_inv (SkyOp.step st op) := by
  cases op with
  | load name env =>
    cases st with
    | none =>
      intro s2 hs2
      simp [SkyOp.step, skybox_system_load] at hs2
    | some s =>
      by_cases hs : s.shader_id = INVALID_ID
      · intro s2 hs2
        simp only [SkyOp.step, skybox_system_load, hs, if_true] at hs2
        obtain rfl := Option.some.inj hs2
        exact h s rfl
      · intro s2 hs2
        rw [SkyOp.step, load_result_state s name env hs] at hs2
        obtain rfl := Option.some.inj hs2
        have hpre := pre_state_not_loaded s env.shader_get_ok
        rcases load_attempt_cases
            ((if s.is_loaded then skybox_system_unload_core s env.shader_get_ok
              else (s, [])).1) name env with
          ⟨_, hL, _, _, _⟩ | ⟨_, hL, _, _, hI⟩
        · intro hld
          rw [hL, hpre] at hld
          exact absurd hld (by simp)
        · intro _
          simp only [SkyOp.good, decide_eq_true_eq] at hg
          intro hc
          rw [hc] at hI
          exact hg hI
  | unload g =>
    cases st with
    | none =>
      intro s2 hs2
      simp [SkyOp.step, skybox_system_unload] at hs2
    | some s =>
      intro s2 hs2
      simp only [SkyOp.step, skybox_system_unload] at hs2
      obtain rfl := Option.some.inj hs2
      intro hld
      rw [unload_core_result_not_loaded s g] at hld
      exact absurd hld (by simp)
  | render p v f env =>
    cases st with
    | none =>
      intro s2 hs2
      simp [SkyOp.step, skybox_system_render] at hs2
    | some s =>
      intro s2 hs2
      simp only [SkyOp.step] at hs2
      rcases render_state_cases s p v f env with hr | hr <;> rw [hr] at hs2 <;>
        obtain rfl := Option.some.inj hs2 <;> exact fun hld => h s rfl hld

theorem run_ops_basic_inv (ops : List SkyOp) :
    ∀ st, basic_inv st → basic_inv (run_ops st ops) := by
  induction ops with
  | nil => exact fun st h => h
  | cons op rest ih => exact fun st h => ih _ (step_basic_inv st op h)

theorem run_ops_inst_inv (ops : List SkyOp) (hg : ∀ op ∈ ops, SkyOp.good op = true) :
    ∀ st, inst_inv st → inst_inv (run_ops st ops) := by
  induction ops with
  | nil => exact fun st h => h
  | cons op rest ih =>
    intro st h
    exact ih (fun o ho => hg o (List.mem_cons_of_mem op ho)) _
      (step_inst_inv st op (hg op (List.mem_cons_self op rest)) h)

theorem init_basic_inv (has : Bool) (cfg : skybox_system_config) (env : InitEnv) :
    basic_inv ( skybox_system_initialize has cfg env).2 := by
  intro s hs
  rw [ skybox_system_initialize] at hs
  split_ifs at hs <;> simp only [Option.some.injEq] at hs <;> try cases hs
  all_goals exact ⟨fun _ => rfl, fun hld => absurd hld (by simp [skybox_state_zero])⟩

theorem init_inst_inv (has : Bool) (cfg : skybox_system_config) (env : InitEnv) :
    inst_inv ( skybox_system_initialize has cfg env).2 := by
  intro s hs
  rw [ skybox_system_initialize] at hs
  split_ifs at hs <;> simp only [Option.some.injEq] at hs <;> try cases hs
  all_goals exact fun hld => absurd hld (by simp [skybox_state_zero])

theorem load_fail_queries (st : Option skybox_state) (name : String) (env : LoadEnv)
    (hinv : basic_inv st) (h : (skybox_system_load st name env).1 = false) :
    skybox_system_is_loaded (skybox_system_load st name env).2.1 = false ∧
    skybox_system_get_current_name (skybox_system_load st name env).2.1 = "" := by
  cases st with
  | none =>
    simp [skybox_system_load, skybox_system_is_loaded, skybox_system_get_current_name]
  | some s =>
    by_cases hs : s.shader_id = INVALID_ID
    · have h2 := hinv s rfl
      have hl : s.is_loaded = false := by
        cases hb : s.is_loaded
        · rfl
        · exact absurd hs (h2.2 hb)
      simp [skybox_system_load, hs, skybox_system_is_loaded,
        skybox_system_get_current_name, hl, h2.1 hl]
    · rw [load_result_flag s name env hs] at h
      rw [load_result_state s name env hs]
      have hpre := pre_state_props s env.shader_get_ok (hinv s rfl).1
      rcases load_attempt_cases
          ((if s.is_loaded then skybox_system_unload_core s env.shader_get_ok
            else (s, [])).1) name env with
        ⟨_, hL, hN, _, _⟩ | ⟨hT, _, _, _, _⟩
      · constructor
        · simpa [skybox_system_is_loaded, hL] using hpre.1
        · simpa [skybox_system_get_current_name, hN] using hpre.2.1
      · rw [hT] at h
        exact absurd h (by simp)

/-! ### Claim theorems -/

/-- Claim C3: for every reachable state and every name, when `load(name)`
returns failure the subsystem afterwards reports `is_loaded()` false and
`current_name()` empty, even when a skybox was loaded before the call
(fail-destructive load). -/
theorem C3_failed_load_leaves_unloaded (has : Bool) (cfg : skybox_system_config)
    (ienv : InitEnv) (ops : List SkyOp) (name : String) (env : LoadEnv)
    (h : (skybox_system_load (run_ops ( skybox_system_initialize has cfg ienv).2 ops)
            name env).1 = false) :
    skybox_system_is_loaded
        (skybox_system_load (run_ops ( skybox_system_initialize has cfg ienv).2 ops)
          name env).2.1 = false ∧
    skybox_system_get_current_name
        (skybox_system_load (run_ops ( skybox_system_initialize has cfg ienv).2 ops)
          name env).2.1 = "" :=
  load_fail_queries _ name env
    (run_ops_basic_inv ops _ (init_basic_inv has cfg ienv)) h

/-- Witness for C3 at a concrete input: a load whose face images are all
missing fails from the freshly initialized state and leaves the subsystem
unloaded with an empty name. -/
theorem C3_witness :
    skybox_system_is_loaded
        (skybox_system_load
          (run_ops ( skybox_system_initialize true { skybox_base_path := none }
              { shader_get_id := 5, geometry_acquire_ok := true }).2 [])
          "nebula" load_env_face0_missing).2.1 = false ∧
    skybox_system_get_current_name
        (skybox_system_load
          (run_ops ( skybox_system_initialize true { skybox_base_path := none }
              { shader_get_id := 5, geometry_acquire_ok := true }).2 [])
          "nebula" load_env_face0_missing).2.1 = "" :=
  C3_failed_load_leaves_unloaded true { skybox_base_path := none }
    { shader_get_id := 5, geometry_acquire_ok := true } [] "nebula"
    load_env_face0_missing (by decide)

/-- Claim C9 (amended): in every reachable state of the subsystem, under
environments whose successful instance acquisitions hand out non-sentinel
ids, `is_loaded = true` implies that the shader instance id is a valid
(non-sentinel) handle.  The converse direction of the original claim is
refuted by `C9_counterexample`. -/
theorem C9_loaded_implies_valid_instance (has : Bool) (cfg : skybox_system_config)
    (ienv : InitEnv) (ops : List SkyOp)
    (hg : ∀ op ∈ ops, SkyOp.good op = true)
    (hl : skybox_system_is_loaded
        (run_ops ( skybox_system_initialize has cfg ienv).2 ops) = true) :
    skybox_instance_id (run_ops ( skybox_system_initialize has cfg ienv).2 ops)
      ≠ INVALID_ID := by
  have hi := run_ops_inst_inv ops hg _ (init_inst_inv has cfg ienv)
  revert hi hl
  generalize run_ops ( skybox_system_initialize has cfg ienv).2 ops = st
  intro hl hi
  cases st with
  | none => exact absurd hl (by simp [skybox_system_is_loaded])
  | some s => exact hi s rfl (by simpa [skybox_system_is_loaded] using hl)

/-- Witness for C9 at a concrete input: after a successful load from the
freshly initialized state, the instance id is not the sentinel. -/
theorem C9_witness :
    skybox_instance_id
        (run_ops ( skybox_system_initialize true { skybox_base_path := none }
            { shader_get_id := 5, geometry_acquire_ok := true }).2
          [SkyOp.load "default" load_env_ok]) ≠ INVALID_ID :=
  C9_loaded_implies_valid_instance true { skybox_base_path := none }
    { shader_get_id := 5, geometry_acquire_ok := true }
    [SkyOp.load "default" load_env_ok]
    (by
      intro op hop
      obtain rfl := List.mem_singleton.1 hop
      decide)
    (by decide)

/-- Counterexample for C9 as stated: in the reachable state immediately
after initialization the zeroed shader instance id is not the sentinel
(it is a valid-looking handle), while `is_loaded` is false, so the
claimed equivalence between handle validity and loadedness fails. -/
theorem C9_counterexample :
    skybox_system_is_loaded skybox_init_state = false ∧
    skybox_instance_id skybox_init_state ≠ INVALID_ID := by
  constructor
  · decide
  · decide

/-- Claim C10: with a null state pointer, or after an initialization that
did not find the skybox shader, every public entry point degrades safely:
initialization still reports success, loads fail with no resource
activity, the queries report unloaded and an empty name, and render does
nothing. -/
theorem C10_safe_degradation (cfg : skybox_system_config) (g : Bool) (name : String)
    (lenv : LoadEnv) (p v : mat4) (f : Nat) (renv : RenderEnv) :
    skybox_system_load none name lenv = (false, none, []) ∧
    skybox_system_is_loaded none = false ∧
    skybox_system_get_current_name none = "" ∧
    skybox_system_render none p v f renv = (none, []) ∧
    ( skybox_system_initialize true cfg
        { shader_get_id := INVALID_ID, geometry_acquire_ok := g }).1 = true ∧
    skybox_system_load
        ( skybox_system_initialize true cfg
            { shader_get_id := INVALID_ID, geometry_acquire_ok := g }).2 name lenv
      = (false,
          ( skybox_system_initialize true cfg
              { shader_get_id := INVALID_ID, geometry_acquire_ok := g }).2, []) ∧
    skybox_system_is_loaded
        ( skybox_system_initialize true cfg
            { shader_get_id := INVALID_ID, geometry_acquire_ok := g }).2 = false ∧
    skybox_system_get_current_name
        ( skybox_system_initialize true cfg
            { shader_get_id := INVALID_ID, geometry_acquire_ok := g }).2 = "" ∧
    skybox_system_render
        ( skybox_system_initialize true cfg
            { shader_get_id := INVALID_ID, geometry_acquire_ok := g }).2 p v f renv
      = (( skybox_system_initialize true cfg
            { shader_get_id := INVALID_ID, geometry_acquire_ok := g }).2, []) := by
  have h2 : ( skybox_system_initialize true cfg
        { shader_get_id := INVALID_ID, geometry_acquire_ok := g }).2
      = some { skybox_state_zero with
          base_path := string_ncopy (cfg.skybox_base_path.getD "../assets/skyboxes") 512
          shader_id := INVALID_ID } := by
    simp [ skybox_system_initialize]
  have h1 : ( skybox_system_initialize true cfg
        { shader_get_id := INVALID_ID, geometry_acquire_ok := g }).1 = true := by
    simp [ skybox_system_initialize]
  rw [h1, h2]
  refine ⟨rfl, rfl, rfl, rfl, rfl, ?_, rfl, rfl, rfl⟩
  simp [skybox_system_load]

/-- Claim C6: `unload` is idempotent - a second consecutive unload
performs no resource operations and leaves the state unchanged - and an
unload of a loaded skybox (with the shader resolvable and a valid
instance id) releases, in order, the shader instance resources, the
texture map resources, and the cubemap texture, then clears the name and
the loaded flag. -/
theorem C6_unload_idempotent_ordered (st : Option skybox_state) (g1 g2 : Bool)
    (s : skybox_state) (hl : s.is_loaded = true)
    (hid : s.shader_instance_id ≠ INVALID_ID) :
    skybox_system_unload (skybox_system_unload st g1).1 g2
      = ((skybox_system_unload st g1).1, []) ∧
    (skybox_system_unload_core s true).2
      = [Event.instanceRelease s.shader_instance_id, Event.mapRelease,
         Event.cubemapDestroy] ∧
    (skybox_system_unload_core s true).1.is_loaded = false ∧
    (skybox_system_unload_core s true).1.current_name = "" := by
  refine ⟨?_, ?_, (unload_core_loaded_state s true hl).2,
    (unload_core_loaded_state s true hl).1⟩
  · cases st with
    | none => rfl
    | some s0 =>
      simp [skybox_system_unload,
        unload_core_of_not_loaded _ g2 (unload_core_result_not_loaded s0 g1)]
  · rw [unload_core_trace_loaded s true hl]
    simp [bne_iff_ne, hid]

/-- Witness for C6 at a concrete input: double unload from a concrete
loaded state, and the release order for that state. -/
theorem C6_witness :
    skybox_system_unload (skybox_system_unload (some skybox_loaded_state) true).1 true
      = ((skybox_system_unload (some skybox_loaded_state) true).1, []) ∧
    (skybox_system_unload_core skybox_loaded_state true).2
      = [Event.instanceRelease skybox_loaded_state.shader_instance_id,
         Event.mapRelease, Event.cubemapDestroy] ∧
    (skybox_system_unload_core skybox_loaded_state true).1.is_loaded = false ∧
    (skybox_system_unload_core skybox_loaded_state true).1.current_name = "" :=
  C6_unload_idempotent_ordered (some skybox_loaded_state) true true
    skybox_loaded_state rfl (by decide)

/-- Claim C2: loading while a skybox is loaded first runs the full unload
of the previous skybox - its trace releases the texture map and the
cubemap texture, and the shader instance when the shader resolves and the
id is valid, and contains no acquisition event - and only after that
prefix does the trace of the new load attempt (with all its acquisition
events) begin. -/
theorem C2_release_before_acquire (s : skybox_state) (name : String) (env : LoadEnv)
    (hl : s.is_loaded = true) (hs : s.shader_id ≠ INVALID_ID) :
    ∃ t2,
      (skybox_system_load (some s) name env).2.2
        = (skybox_system_unload_core s env.shader_get_ok).2 ++ t2 ∧
      Event.mapRelease ∈ (skybox_system_unload_core s env.shader_get_ok).2 ∧
      Event.cubemapDestroy ∈ (skybox_system_unload_core s env.shader_get_ok).2 ∧
      (env.shader_get_ok = true → s.shader_instance_id ≠ INVALID_ID →
        Event.instanceRelease s.shader_instance_id
          ∈ (skybox_system_unload_core s env.shader_get_ok).2) ∧
      ∀ e ∈ (skybox_system_unload_core s env.shader_get_ok).2,
        e.isAcquireEvent = false := by
  refine ⟨(skybox_load_attempt
      ((if s.is_loaded then skybox_system_unload_core s env.shader_get_ok
        else (s, [])).1) name env).2.2, ?_, ?_, ?_, ?_,
    unload_core_trace_no_acquire s env.shader_get_ok⟩
  · rw [load_result_trace s name env hs, if_pos hl]
  · rw [unload_core_trace_loaded s env.shader_get_ok hl]
    simp
  · rw [unload_core_trace_loaded s env.shader_get_ok hl]
    simp
  · intro hgo hid
    rw [unload_core_trace_loaded s env.shader_get_ok hl]
    have hc : (env.shader_get_ok && s.shader_instance_id != INVALID_ID) = true := by
      simp [hgo, bne_iff_ne, hid]
    simp [hc]

/-- Witness for C2 at a concrete input: reloading over a concrete loaded
state. -/
theorem C2_witness :
    ∃ t2,
      (skybox_system_load (some skybox_loaded_state) "forest" load_env_ok).2.2
        = (skybox_system_unload_core skybox_loaded_state
            load_env_ok.shader_get_ok).2 ++ t2 ∧
      Event.mapRelease
        ∈ (skybox_system_unload_core skybox_loaded_state load_env_ok.shader_get_ok).2 ∧
      Event.cubemapDestroy
        ∈ (skybox_system_unload_core skybox_loaded_state load_env_ok.shader_get_ok).2 ∧
      (load_env_ok.shader_get_ok = true →
        skybox_loaded_state.shader_instance_id ≠ INVALID_ID →
        Event.instanceRelease skybox_loaded_state.shader_instance_id
          ∈ (skybox_system_unload_core skybox_loaded_state
              load_env_ok.shader_get_ok).2) ∧
      ∀ e ∈ (skybox_system_unload_core skybox_loaded_state
          load_env_ok.shader_get_ok).2, e.isAcquireEvent = false :=
  C2_release_before_acquire skybox_loaded_state "forest" load_env_ok rfl (by decide)

/-- Claim C4: when the six faces load consistently, a texture-map
acquisition failure destroys the just-created cubemap texture before
`load` returns failure, and a shader-instance acquisition failure
releases both the map resources and the cubemap texture before `load`
returns failure. -/
theorem C4_failure_releases_gpu (s : skybox_state) (name : String) (env : LoadEnv)
    (fo : FacesOut) (allocated : List (Nat × Nat)) (ftr : List Event)
    (hs : s.shader_id ≠ INVALID_ID)
    (hf : load_cubemap_faces env.face_load = (some fo, allocated, ftr)) :
    (env.map_acquire_ok = false →
       (skybox_system_load (some s) name env).1 = false ∧
       Event.cubemapCreate ∈ (skybox_system_load (some s) name env).2.2 ∧
       Event.cubemapDestroy ∈ (skybox_system_load (some s) name env).2.2) ∧
    (env.map_acquire_ok = true → env.shader_get_ok = true →
       env.instance_acquire = none →
       (skybox_system_load (some s) name env).1 = false ∧
       Event.cubemapCreate ∈ (skybox_system_load (some s) name env).2.2 ∧
       Event.mapRelease ∈ (skybox_system_load (some s) name env).2.2 ∧
       Event.cubemapDestroy ∈ (skybox_system_load (some s) name env).2.2) := by
  constructor
  · intro hm
    refine ⟨?_, ?_, ?_⟩
    · rw [load_result_flag s name env hs]
      simp [skybox_load_attempt, hf, hm]
    · rw [load_result_trace s name env hs]
      simp [skybox_load_attempt, hf, hm]
    · rw [load_result_trace s name env hs]
      simp [skybox_load_attempt, hf, hm]
  · intro hm hg hi
    refine ⟨?_, ?_, ?_, ?_⟩
    · rw [load_result_flag s name env hs]
      simp [skybox_load_attempt, hf, hm, hg, hi]
    · rw [load_result_trace s name env hs]
      simp [skybox_load_attempt, hf, hm, hg, hi]
    · rw [load_result_trace s name env hs]
      simp [skybox_load_attempt, hf, hm, hg, hi]
    · rw [load_result_trace s name env hs]
      simp [skybox_load_attempt, hf, hm, hg, hi]

/-- Witness for C4 at a concrete input: a load whose texture-map
acquisition fails returns failure and its trace creates and then
destroys the cubemap texture. -/
theorem C4_witness :
    (skybox_system_load (some skybox_loaded_state) "city" load_env_map_fail).1 = false ∧
    Event.cubemapCreate
      ∈ (skybox_system_load (some skybox_loaded_state) "city" load_env_map_fail).2.2 ∧
    Event.cubemapDestroy
      ∈ (skybox_system_load (some skybox_loaded_state) "city" load_env_map_fail).2.2 :=
  (C4_failure_releases_gpu skybox_loaded_state "city" load_env_map_fail
    _ _ _ (by decide) rfl).1 rfl

theorem string_ncopy_eq_self (s : String) (n : Nat) (h : s.length ≤ n) :
    string_ncopy s n = s := by
  simp only [string_ncopy]
  rw [List.take_of_length_le (show s.data.length ≤ n from h)]

/-- Claim C5 (amended): for every name shorter than the 64-character
skybox name bound, a successful `load(name)` leaves `is_loaded()` true
and `current_name()` equal to `name`, and a subsequent `unload()` leaves
`is_loaded()` false and `current_name()` empty.  Names at or beyond the
bound are stored truncated, refuting the unrestricted claim
(`C5_counterexample`). -/
theorem C5_load_success_queries (st : Option skybox_state) (name : String)
    (env : LoadEnv) (g : Bool)
    (hn : name.length < SKYBOX_NAME_MAX_LENGTH)
    (h : (skybox_system_load st name env).1 = true) :
    skybox_system_is_loaded (skybox_system_load st name env).2.1 = true ∧
    skybox_system_get_current_name (skybox_system_load st name env).2.1 = name ∧
    skybox_system_is_loaded
      (skybox_system_unload (skybox_system_load st name env).2.1 g).1 = false ∧
    skybox_system_get_current_name
      (skybox_system_unload (skybox_system_load st name env).2.1 g).1 = "" := by
  cases st with
  | none => exact absurd h (by simp [skybox_system_load])
  | some s =>
    by_cases hs : s.shader_id = INVALID_ID
    · simp [skybox_system_load, hs] at h
    · rw [load_result_flag s name env hs] at h
      rw [load_result_state s name env hs]
      rcases load_attempt_cases
          ((if s.is_loaded then skybox_system_unload_core s env.shader_get_ok
            else (s, [])).1) name env with
        ⟨hF, _, _, _, _⟩ | ⟨_, hL, hN, _, _⟩
      · rw [hF] at h
        exact absurd h (by simp)
      · have hname : string_ncopy name SKYBOX_NAME_MAX_LENGTH = name :=
          string_ncopy_eq_self name _ (Nat.le_of_lt hn)
        refine ⟨?_, ?_, ?_, ?_⟩
        · simpa [skybox_system_is_loaded] using hL
        · simp [skybox_system_get_current_name, hN, hname]
        · simp only [skybox_system_unload]
          simpa [skybox_system_is_loaded] using unload_core_result_not_loaded _ g
        · simp only [skybox_system_unload]
          simpa [skybox_system_get_current_name] using
            (unload_core_loaded_state _ g hL).1

/-- Witness for C5 at a concrete input: load `"default"` from the freshly
initialized state, then unload. -/
theorem C5_witness :
    skybox_system_is_loaded
      (skybox_system_load skybox_init_state "default" load_env_ok).2.1 = true ∧
    skybox_system_get_current_name
      (skybox_system_load skybox_init_state "default" load_env_ok).2.1 = "default" ∧
    skybox_system_is_loaded
      (skybox_system_unload
        (skybox_system_load skybox_init_state "default" load_env_ok).2.1 true).1
      = false ∧
    skybox_system_get_current_name
      (skybox_system_unload
        (skybox_system_load skybox_init_state "default" load_env_ok).2.1 true).1
      = "" :=
  C5_load_success_queries skybox_init_state "default" load_env_ok true
    (by decide) (by decide)

/-- Counterexample for C5 as stated: a successful load of a 65-character
name leaves `current_name()` different from the name passed in (the
stored copy is truncated to the 64-character bound). -/
theorem C5_counterexample :
    (skybox_system_load skybox_init_state long_name load_env_ok).1 = true ∧
    skybox_system_get_current_name
        (skybox_system_load skybox_init_state long_name load_env_ok).2.1
      ≠ long_name := by
  constructor
  · decide
  · decide

/-- Claim C7: a render on a loaded state with all collaborator calls
succeeding applies the shader instance with the dirty flag set to
whether the stored frame number differs from the passed one, then stores
the passed frame number; hence an immediately repeated render with the
same frame number applies the instance with the flag false (never true),
and a following render with the next frame number applies it with the
flag true. -/
theorem C7_frame_number_dirty_flag (s : skybox_state) (p v : mat4) (N : Nat)
    (env : RenderEnv) (hl : s.is_loaded = true) (hgm : s.cube_geometry = true)
    (he : env.all_ok = true) :
    (skybox_system_render (some s) p v N env).1
      = some { s with render_frame_number := N } ∧
    Event.applyInstance (s.render_frame_number != N)
      ∈ (skybox_system_render (some s) p v N env).2 ∧
    Event.applyInstance true
      ∉ (skybox_system_render (skybox_system_render (some s) p v N env).1
          p v N env).2 ∧
    Event.applyInstance false
      ∈ (skybox_system_render (skybox_system_render (some s) p v N env).1
          p v N env).2 ∧
    Event.applyInstance true
      ∈ (skybox_system_render
          (skybox_system_render (skybox_system_render (some s) p v N env).1
            p v N env).1 p v (N + 1) env).2 := by
  simp only [RenderEnv.all_ok, Bool.and_eq_true] at he
  obtain ⟨⟨⟨⟨⟨h1, h2⟩, h3⟩, h4⟩, h5⟩, h6⟩ := he
  have hbne : (N != (N + 1)) = true :=
    bne_iff_ne.mpr (Nat.ne_of_lt (Nat.lt_succ_self N))
  have hr1 : skybox_system_render (some s) p v N env
      = (some { s with render_frame_number := N },
         [Event.shaderUse, Event.bindGlobals, Event.setProjection, Event.setView,
          Event.applyGlobal, Event.bindInstance s.shader_instance_id,
          Event.applyInstance (s.render_frame_number != N), Event.drawGeometry]) := by
    simp [skybox_system_render, hl, hgm, h1, h2, h3, h4, h5, h6]
  have hr2 : skybox_system_render (some { s with render_frame_number := N }) p v N env
      = (some { s with render_frame_number := N },
         [Event.shaderUse, Event.bindGlobals, Event.setProjection, Event.setView,
          Event.applyGlobal, Event.bindInstance s.shader_instance_id,
          Event.applyInstance false, Event.drawGeometry]) := by
    simp [skybox_system_render, hl, hgm, h1, h2, h3, h4, h5, h6]
  have hr3 : skybox_system_render (some { s with render_frame_number := N }) p v
        (N + 1) env
      = (some { s with render_frame_number := N + 1 },
         [Event.shaderUse, Event.bindGlobals, Event.setProjection, Event.setView,
          Event.applyGlobal, Event.bindInstance s.shader_instance_id,
          Event.applyInstance true, Event.drawGeometry]) := by
    simp [skybox_system_render, hl, hgm, h1, h2, h3, h4, h5, h6, hbne]
  rw [hr1]
  refine ⟨rfl, by simp, ?_, ?_, ?_⟩
  · rw [hr2]
    simp
  · rw [hr2]
    simp
  · rw [hr2, hr3]
    simp

/-- Witness for C7 at a concrete input: repeated renders of a concrete
loaded state at frame 3 and then frame 4. -/
theorem C7_witness :
    (skybox_system_render (some skybox_loaded_state) mat4.mk mat4.mk 3
        render_env_ok).1
      = some { skybox_loaded_state with render_frame_number := 3 } ∧
    Event.applyInstance (skybox_loaded_state.render_frame_number != 3)
      ∈ (skybox_system_render (some skybox_loaded_state) mat4.mk mat4.mk 3
          render_env_ok).2 ∧
    Event.applyInstance true
      ∉ (skybox_system_render
          (skybox_system_render (some skybox_loaded_state) mat4.mk mat4.mk 3
            render_env_ok).1 mat4.mk mat4.mk 3 render_env_ok).2 ∧
    Event.applyInstance false
      ∈ (skybox_system_render
          (skybox_system_render (some skybox_loaded_state) mat4.mk mat4.mk 3
            render_env_ok).1 mat4.mk mat4.mk 3 render_env_ok).2 ∧
    Event.applyInstance true
      ∈ (skybox_system_render
          (skybox_system_render
            (skybox_system_render (some skybox_loaded_state) mat4.mk mat4.mk 3
              render_env_ok).1 mat4.mk mat4.mk 3 render_env_ok).1
          mat4.mk mat4.mk (3 + 1) render_env_ok).2 :=
  C7_frame_number_dirty_flag skybox_loaded_state mat4.mk mat4.mk 3 render_env_ok
    rfl rfl rfl

/-- Claim C8: render is a no-op (unchanged state, no collaborator calls)
when nothing is loaded or the cube geometry is absent, and a failure at
the shader-activation, global-bind, uniform-set, or instance-apply stage
aborts the frame without a draw call and without changing any state. -/
theorem C8_render_noop_and_abort (s : skybox_state) (p v : mat4) (f : Nat)
    (env : RenderEnv) :
    ((s.is_loaded = false ∨ s.cube_geometry = false) →
       skybox_system_render (some s) p v f env = (some s, [])) ∧
    ((env.use_ok = false ∨ env.bind_globals_ok = false ∨
        env.set_projection_ok = false ∨ env.set_view_ok = false ∨
        env.apply_instance_ok = false) →
       (skybox_system_render (some s) p v f env).1 = some s ∧
       Event.drawGeometry ∉ (skybox_system_render (some s) p v f env).2) := by
  constructor
  · rintro (h | h) <;> simp [skybox_system_render, h]
  · intro h
    simp only [skybox_system_render]
    split_ifs <;> simp_all

/-- Witness for C8 at concrete inputs: the freshly zeroed state renders
to a no-op, and a loaded state whose instance-apply call fails keeps its
state and issues no draw. -/
theorem C8_witness :
    skybox_system_render (some skybox_state_zero) mat4.mk mat4.mk 3 render_env_ok
      = (some skybox_state_zero, []) ∧
    ((skybox_system_render (some skybox_loaded_state) mat4.mk mat4.mk 3
        { render_env_ok with apply_instance_ok := false }).1
       = some skybox_loaded_state ∧
     Event.drawGeometry
       ∉ (skybox_system_render (some skybox_loaded_state) mat4.mk mat4.mk 3
           { render_env_ok with apply_instance_ok := false }).2) :=
  ⟨(C8_render_noop_and_abort skybox_state_zero mat4.mk mat4.mk 3 render_env_ok).1
      (Or.inl rfl),
   (C8_render_noop_and_abort skybox_loaded_state mat4.mk mat4.mk 3
      { render_env_ok with apply_instance_ok := false }).2
      (Or.inr (Or.inr (Or.inr (Or.inr rfl))))⟩

/-- Claim C1 (failing input): six faces that agree in width and height
but differ in channel count (face 1 has 3 channels, the others 4) are
not rejected - the load succeeds and the cubemap is created, because
`load_cubemap_faces` compares only width and height; moreover face 1's
pixel buffer is allocated with its own 3-byte size but freed with face
0's 4-byte size. -/
theorem C1_channel_mismatch_not_rejected :
    (skybox_system_load skybox_init_state "mismatch"
        load_env_channel_mismatch).1 = true ∧
    Event.cubemapCreate
      ∈ (skybox_system_load skybox_init_state "mismatch"
          load_env_channel_mismatch).2.2 ∧
    Event.allocFace 1 3
      ∈ (skybox_system_load skybox_init_state "mismatch"
          load_env_channel_mismatch).2.2 ∧
    Event.freeFace 1 4
      ∈ (skybox_system_load skybox_init_state "mismatch"
          load_env_channel_mismatch).2.2 ∧
    Event.freeFace 1 3
      ∉ (skybox_system_load skybox_init_state "mismatch"
          load_env_channel_mismatch).2.2 := by
  refine ⟨by decide, by decide, by decide, by decide, by decide⟩

end Ignis
